import Mathlib

/-!
Verification of the artifact-reconstruction service layer.

The development shallowly embeds the service layer of the application:
the bounded exponential-backoff retry wrapper `withRetry`, the transient
error classifier it relies on, the audio decoder `decodeAudioData`, the
image and speech response extractors `generateImage` / `generateSpeech`,
the analyzer post-processing in `analyzeArtifact` (JSON-text parsing and
grounding-source extraction), and the fail-fast generating stage of the
orchestrator.  Effects are made explicit: a fallible asynchronous
operation becomes a value of `Except`, successive invocations of a
zero-argument operation are modelled by indexing with the attempt
number, and the wall-clock sleeps of the retry loop are recorded as a
list of delay durations.
-/

/-- Substring occurrence on character lists: `containsSub pat cs` is true
iff `pat` occurs contiguously inside `cs` (also when `pat` is empty).
This is the semantics of JavaScript `String.prototype.includes`. -/
def containsSub (pat : List Char) : List Char → Bool
  | [] => pat.isEmpty
  | c :: rest => pat.isPrefixOf (c :: rest) || containsSub pat rest

/-- JavaScript `s.includes(pat)` on strings. -/
def strContains (s pat : String) : Bool :=
  containsSub pat.data s.data

/-- The observable fields of a caught JavaScript error value, as read by
`withRetry` and the orchestrator: `error?.status`, `error?.code` and
`error?.message`.  Absent fields are `none`. -/
structure JsError where
  status : Option String
  code : Option Int
  message : Option String
  deriving DecidableEq

/-- Transient classification from `withRetry`:
`error?.status === 'INTERNAL' || error?.code === 500 ||
 error?.message?.includes('500')`. -/
def isTransient (e : JsError) : Bool :=
  e.status == some "INTERNAL" || e.code == some 500 ||
    (match e.message with
     | some m => strContains m "500"
     | none => false)

/-- Default maximum retry count (`MAX_RETRIES`). -/
def MAX_RETRIES : Nat := 2

/-- Default initial backoff delay in milliseconds (`INITIAL_BACKOFF`). -/
def INITIAL_BACKOFF : Nat := 1000

/-- Observable outcome of one run of the retry wrapper: the final result,
the number of invocations of the wrapped operation, and the list of
backoff delays slept (in order) before each retry attempt. -/
structure RetryTrace (α : Type) where
  result : Except JsError α
  calls : Nat
  delays : List Nat

/-- The retry wrapper `withRetry`.  The zero-argument asynchronous
operation is modelled as `fn : Nat → Except JsError α`, where `fn i` is
the outcome of its `i`-th invocation (counting from `callIdx`); `retries`
and `delay` are the remaining retry budget and current backoff delay.
On a failure the source tests `isTransient error && retries > 0` — here
unfolded into the two cases of `retries`; when it holds it sleeps
`delay` (recorded in the trace) and recurses with `retries - 1` and
`delay * 2`, otherwise the error is rethrown unchanged. -/
def withRetry {α : Type} (fn : Nat → Except JsError α) :
    Nat → Nat → Nat → RetryTrace α
  | 0, _, callIdx =>
    match fn callIdx with
    | .ok v => ⟨.ok v, 1, []⟩
    | .error e => ⟨.error e, 1, []⟩
  | r + 1, delay, callIdx =>
    match fn callIdx with
    | .ok v => ⟨.ok v, 1, []⟩
    | .error e =>
      if isTransient e then
        let t := withRetry fn r (delay * 2) (callIdx + 1)
        ⟨t.result, t.calls + 1, delay :: t.delays⟩
      else ⟨.error e, 1, []⟩

/-- The transient-error condition as the code actually implements it,
written out as a proposition (used to state the amended form of the
classification claim): status is exactly `"INTERNAL"`, or code is
exactly `500`, or the message contains the substring `"500"`. -/
def transientSpecAmended (e : JsError) : Prop :=
  e.status = some "INTERNAL" ∨ e.code = some 500 ∨
    ∃ m, e.message = some m ∧ strContains m "500" = true

/-- Reinterpretation of one little-endian byte pair as a signed 16-bit
integer, as performed element-wise by `new Int16Array(buffer)` on a
little-endian platform.  Bytes are reduced mod 256 so the function is
total on `Nat`. -/
def toInt16 (lo hi : Nat) : Int :=
  let v := lo % 256 + 256 * (hi % 256)
  if v < 32768 then (v : Int) else (v : Int) - 65536

/-- The element sequence of `new Int16Array(buffer)` for an even-length
buffer: consecutive little-endian byte pairs as signed 16-bit values. -/
def bytesToInt16 : List Nat → List Int
  | lo :: hi :: rest => toInt16 lo hi :: bytesToInt16 rest
  | _ => []

/-- The planar floating-point buffer produced by the audio decoder,
mirroring the Web Audio `AudioBuffer` it fills: per-channel sample
lists (`getChannelData`), a frame count (`length`), a channel count and
a sample rate.  Samples are exact rationals: dividing a 16-bit integer
by 32768.0 is exact in IEEE double precision, so `ℚ` models the
JavaScript arithmetic faithfully. -/
structure AudioBuffer where
  numberOfChannels : Nat
  length : Nat
  sampleRate : Nat
  channelData : List (List ℚ)

/-- The audio decoder `decodeAudioData`.  `new Int16Array(data.buffer)`
throws a `RangeError` when the byte length is odd; otherwise the code
computes `frameCount = dataInt16.length / numChannels` (a JavaScript
real division) and fills one `Float32Array` per channel with
`dataInt16[i * numChannels + channel] / 32768.0`.  When the sample
count is not a multiple of the channel count, `createBuffer` truncates
the fractional frame count and the loop's writes past the end of the
channel data are silently dropped (out-of-range typed-array stores are
no-ops), so the net effect embedded here is `Nat` floor division. -/
def decodeAudioData (data : List Nat) (sampleRate numChannels : Nat) :
    Except String AudioBuffer :=
  if data.length % 2 ≠ 0 then
    .error "RangeError: byte length of Int16Array should be a multiple of 2"
  else
    let dataInt16 := bytesToInt16 data
    let frameCount := dataInt16.length / numChannels
    .ok { numberOfChannels := numChannels
          length := frameCount
          sampleRate := sampleRate
          channelData := (List.range numChannels).map fun channel =>
            (List.range frameCount).map fun i =>
              ((dataInt16.getD (i * numChannels + channel) 0 : ℚ) / 32768) }

/-- Sample read-back from a decoded buffer: channel `c`, frame `f`. -/
def sampleAt (buf : AudioBuffer) (c f : Nat) : ℚ :=
  (buf.channelData.getD c []).getD f 0

/-- JSON values, as produced by `JSON.parse`.  Numbers are rationals
(JSON numeric literals are decimal and exact here; rounding to IEEE
doubles is irrelevant to the claims, which never inspect numbers). -/
inductive Json where
  | null
  | bool (b : Bool)
  | num (q : ℚ)
  | str (s : String)
  | arr (elems : List Json)
  | obj (fields : List (String × Json))

/-- JSON insignificant whitespace. -/
def jsonWhitespace (c : Char) : Bool :=
  c = ' ' || c = '\t' || c = '\n' || c = '\r'

/-- Drops leading JSON whitespace. -/
def skipWs : List Char → List Char
  | [] => []
  | c :: rest => if jsonWhitespace c then skipWs rest else c :: rest

/-- Splits a maximal run of leading decimal digits off a character list,
returning their values. -/
def takeDigits : List Char → List Nat × List Char
  | [] => ([], [])
  | c :: rest =>
    if c.isDigit then
      let p := takeDigits rest
      ((c.toNat - 48) :: p.1, p.2)
    else ([], c :: rest)

/-- Value of a big-endian digit list. -/
def natOfDigits (ds : List Nat) : Nat :=
  ds.foldl (fun a d => a * 10 + d) 0

/-- Parses an optional JSON fraction part `.digits`. -/
def parseFrac : List Char → Option (ℚ × List Char)
  | '.' :: rest =>
    let p := takeDigits rest
    if p.1.isEmpty then none
    else some ((natOfDigits p.1 : ℚ) / (10 : ℚ) ^ p.1.length, p.2)
  | cs => some (0, cs)

/-- Parses an optional JSON exponent part `(e|E)(+|-)?digits`. -/
def parseExp : List Char → Option (Int × List Char)
  | [] => some (0, [])
  | c :: rest =>
    if c = 'e' ∨ c = 'E' then
      let sp : Int × List Char :=
        match rest with
        | '+' :: r => (1, r)
        | '-' :: r => (-1, r)
        | r => (1, r)
      let p := takeDigits sp.2
      if p.1.isEmpty then none
      else some (sp.1 * (natOfDigits p.1 : Int), p.2)
    else some (0, c :: rest)

/-- Parses a JSON number literal (sign, integer part without redundant
leading zeros, optional fraction and exponent). -/
def parseNumber (cs : List Char) : Option (ℚ × List Char) :=
  let sp : Bool × List Char :=
    match cs with
    | '-' :: rest => (true, rest)
    | _ => (false, cs)
  let ip := takeDigits sp.2
  if ip.1.isEmpty then none
  else if 1 < ip.1.length ∧ ip.1.headD 0 = 0 then none
  else
    match parseFrac ip.2 with
    | none => none
    | some (frac, cs₂) =>
      match parseExp cs₂ with
      | none => none
      | some (e, cs₃) =>
        let mag : ℚ := ((natOfDigits ip.1 : ℚ) + frac) * (10 : ℚ) ^ e
        some (if sp.1 then -mag else mag, cs₃)

/-- Value of a hexadecimal digit character. -/
def hexVal (c : Char) : Option Nat :=
  if c.isDigit then some (c.toNat - 48)
  else if 'a' ≤ c ∧ c ≤ 'f' then some (c.toNat - 87)
  else if 'A' ≤ c ∧ c ≤ 'F' then some (c.toNat - 55)
  else none

/-- Parses the body of a JSON string literal (the opening quote already
consumed), handling the JSON escape sequences. -/
def parseStringBody : List Char → Option (List Char × List Char)
  | [] => none
  | '"' :: rest => some ([], rest)
  | '\\' :: 'u' :: a :: b :: c :: d :: rest =>
    match hexVal a, hexVal b, hexVal c, hexVal d with
    | some ha, some hb, some hc, some hd =>
      match parseStringBody rest with
      | some (s, rem) => some (Char.ofNat (((ha * 16 + hb) * 16 + hc) * 16 + hd) :: s, rem)
      | none => none
    | _, _, _, _ => none
  | '\\' :: e :: rest =>
    let esc : Option Char :=
      if e = '"' then some '"'
      else if e = '\\' then some '\\'
      else if e = '/' then some '/'
      else if e = 'b' then some (Char.ofNat 8)
      else if e = 'f' then some (Char.ofNat 12)
      else if e = 'n' then some '\n'
      else if e = 'r' then some '\r'
      else if e = 't' then some '\t'
      else none
    match esc with
    | some c =>
      match parseStringBody rest with
      | some (s, rem) => some (c :: s, rem)
      | none => none
    | none => none
  | '\\' :: [] => none
  | c :: rest =>
    match parseStringBody rest with
    | some (s, rem) => some (c :: s, rem)
    | none => none

mutual

/-- Parses one JSON value (fuelled recursive descent; the fuel is spent
only on nesting, so `jsonParse` supplies enough for any input). -/
def parseValue : Nat → List Char → Option (Json × List Char)
  | 0, _ => none
  | fuel + 1, cs =>
    match skipWs cs with
    | [] => none
    | c :: rest =>
      if c = '\x7b' then
        match skipWs rest with
        | '\x7d' :: rem => some (.obj [], rem)
        | cs₂ =>
          match parseMembers fuel cs₂ with
          | some (fields, rem) => some (.obj fields, rem)
          | none => none
      else if c = '[' then
        match skipWs rest with
        | ']' :: rem => some (.arr [], rem)
        | cs₂ =>
          match parseElements fuel cs₂ with
          | some (elems, rem) => some (.arr elems, rem)
          | none => none
      else if c = '"' then
        match parseStringBody rest with
        | some (s, rem) => some (.str (String.mk s), rem)
        | none => none
      else if c = 't' then
        match rest with
        | 'r' :: 'u' :: 'e' :: rem => some (.bool true, rem)
        | _ => none
      else if c = 'f' then
        match rest with
        | 'a' :: 'l' :: 's' :: 'e' :: rem => some (.bool false, rem)
        | _ => none
      else if c = 'n' then
        match rest with
        | 'u' :: 'l' :: 'l' :: rem => some (.null, rem)
        | _ => none
      else
        match parseNumber (c :: rest) with
        | some (q, rem) => some (.num q, rem)
        | none => none

/-- Parses the non-empty member list of a JSON object, up to and
including the closing brace. -/
def parseMembers : Nat → List Char → Option (List (String × Json) × List Char)
  | 0, _ => none
  | fuel + 1, cs =>
    match skipWs cs with
    | '"' :: rest =>
      match parseStringBody rest with
      | some (key, cs₂) =>
        match skipWs cs₂ with
        | ':' :: cs₃ =>
          match parseValue fuel cs₃ with
          | some (v, cs₄) =>
            match skipWs cs₄ with
            | ',' :: cs₅ =>
              match parseMembers fuel cs₅ with
              | some (fields, rem) => some ((String.mk key, v) :: fields, rem)
              | none => none
            | '\x7d' :: rem => some ([(String.mk key, v)], rem)
            | _ => none
          | none => none
        | _ => none
      | none => none
    | _ => none

/-- Parses the non-empty element list of a JSON array, up to and
including the closing bracket. -/
def parseElements : Nat → List Char → Option (List Json × List Char)
  | 0, _ => none
  | fuel + 1, cs =>
    match parseValue fuel cs with
    | some (v, cs₂) =>
      match skipWs cs₂ with
      | ',' :: cs₃ =>
        match parseElements fuel cs₃ with
        | some (elems, rem) => some (v :: elems, rem)
        | none => none
      | ']' :: rem => some ([v], rem)
      | _ => none
    | none => none

end

/-- `JSON.parse`: parses the whole string as one JSON value, rejecting
trailing non-whitespace; a failure models the thrown `SyntaxError`. -/
def jsonParse (s : String) : Except String Json :=
  match parseValue (s.length + 1) s.data with
  | some (v, rem) =>
    if (skipWs rem).isEmpty then .ok v
    else .error "SyntaxError: unexpected non-whitespace character after JSON data"
  | none => .error "SyntaxError: unexpected token in JSON"

/-- An inline binary payload carried by a response content part
(`part.inlineData`): a MIME type and base64 data. -/
structure InlineData where
  mimeType : String
  data : String
  deriving DecidableEq

/-- One content part of a model response. -/
structure ContentPart where
  inlineData : Option InlineData
  deriving DecidableEq

/-- The content of a response candidate (`candidate.content`). -/
structure ContentBody where
  parts : Option (List ContentPart)
  deriving DecidableEq

/-- A web citation inside a grounding chunk (`chunk.web`). -/
structure WebChunk where
  title : Option String
  uri : String
  deriving DecidableEq

/-- One grounding chunk of the response metadata. -/
structure GroundingChunk where
  web : Option WebChunk
  deriving DecidableEq

/-- The grounding metadata of a candidate
(`candidate.groundingMetadata`). -/
structure GroundingMetadata where
  groundingChunks : Option (List GroundingChunk)
  deriving DecidableEq

/-- One response candidate. -/
structure Candidate where
  content : Option ContentBody
  groundingMetadata : Option GroundingMetadata
  deriving DecidableEq

/-- The observable shape of a `generateContent` response as the service
layer reads it: the accessor `response.text` (the concatenated JSON
text, absent when the model returned none) and the candidate list. -/
structure GenerateContentResponse where
  text : Option String
  candidates : Option (List Candidate)
  deriving DecidableEq

/-- The part list scanned by the image extractor:
`response.candidates?.[0]?.content?.parts || []`. -/
def partsOf (response : GenerateContentResponse) : List ContentPart :=
  (((response.candidates.bind List.head?).bind
    (fun c => c.content)).bind (fun b => b.parts)).getD []

/-- First part carrying an inline payload, in part order. -/
def firstInlinePart : List ContentPart → Option InlineData
  | [] => none
  | p :: rest =>
    match p.inlineData with
    | some d => some d
    | none => firstInlinePart rest

/-- The image synthesizer `generateImage`, modelled from the point the
response is available: scans the content parts and returns the first
inline payload as a data URI with the hard-coded prefix
`data:image/png;base64,`, or throws the synthesis-failure error. -/
def generateImage (response : GenerateContentResponse) : Except String String :=
  match firstInlinePart (partsOf response) with
  | some d => .ok ("data:image/png;base64," ++ d.data)
  | none => .error "Visual synthesis failed. The fragment might be too complex."

/-- The narration synthesizer `generateSpeech`, modelled from the point
the response is available: reads
`response.candidates?.[0]?.content?.parts?.[0]?.inlineData?.data` and
throws the audio synthesis-failure error when that chain is absent (or
the payload is the empty string, which is falsy in JavaScript). -/
def generateSpeech (response : GenerateContentResponse) : Except String String :=
  match ((partsOf response).head?.bind (fun p => p.inlineData)).map (fun d => d.data) with
  | some s => if s = "" then .error "Audio synthesis failed." else .ok s
  | none => .error "Audio synthesis failed."

/-- One grounding source of the returned analysis (`types.ts`). -/
structure GroundingSource where
  title : String
  uri : String
  deriving DecidableEq

/-- Title selection `chunk.web.title || 'Museum Database Entry'`: the
fallback is used when the title is absent — or empty, which is falsy in
JavaScript. -/
def titleOrFallback (title : Option String) : String :=
  match title with
  | some t => if t = "" then "Museum Database Entry" else t
  | none => "Museum Database Entry"

/-- The source-list extraction of `analyzeArtifact`: every grounding
chunk carrying a web citation contributes one `{title, uri}` entry, in
chunk order; an absent chunk list yields the empty list. -/
def sourcesOfChunks (chunks : Option (List GroundingChunk)) : List GroundingSource :=
  (chunks.getD []).filterMap fun c =>
    c.web.map fun w => ⟨titleOrFallback w.title, w.uri⟩

/-- The grounding-chunk access of `analyzeArtifact`:
`response.candidates?.[0]?.groundingMetadata?.groundingChunks`. -/
def chunksOf (response : GenerateContentResponse) : Option (List GroundingChunk) :=
  ((response.candidates.bind List.head?).bind
    (fun c => c.groundingMetadata)).bind (fun g => g.groundingChunks)

/-- The value returned by `analyzeArtifact`: the parsed response body
(the `as ArtifactAnalysis` cast is a compile-time assertion with no
runtime check, so the body is kept as plain JSON) together with the
`sources` list the function attaches to it. -/
structure AnalysisResult where
  analysisJson : Json
  sources : List GroundingSource

/-- The analyzer `analyzeArtifact`, modelled from the point the response
is available: takes `response.text || "\x7b\x7d"`, runs `JSON.parse` on
it (propagating a parse failure), attaches the extracted grounding
sources, and returns the result.  No field of the parsed object is
validated. -/
def analyzeArtifact (response : GenerateContentResponse) : Except String AnalysisResult :=
  match jsonParse (response.text.getD "\x7b\x7d") with
  | .error e => .error e
  | .ok j => .ok ⟨j, sourcesOfChunks (chunksOf response)⟩

/-- The orchestrator status values (`AppStatus` in `types.ts`). -/
inductive AppStatus where
  | idle
  | analyzing
  | generating
  | complete
  | error
  deriving DecidableEq

/-- The session's `ReconstructionData` record (`types.ts`). -/
structure ReconstructionData where
  analysis : Option AnalysisResult
  pastImage : Option String
  presentImage : Option String
  originalImage : Option String
  audioBlob : Option String

/-- The orchestrator state touched by `processFile`: the status, the
session data and the user-facing error message. -/
structure SessionState where
  status : AppStatus
  data : ReconstructionData
  errorMsg : Option String

/-- `Promise.all` over the three settled downstream results: succeeds
with the triple iff all three succeeded, otherwise rejects with one of
the failures (the code observes the rejection only after the join). -/
def promiseAll3 {α β γ : Type} (a : Except String α) (b : Except String β)
    (c : Except String γ) : Except String (α × β × γ) :=
  match a, b, c with
  | .ok x, .ok y, .ok z => .ok (x, y, z)
  | .error e, _, _ => .error e
  | .ok _, .error e, _ => .error e
  | .ok _, .ok _, .error e => .error e

/-- The error classification of `processFile`'s catch block: inspects
the lowercased message for permission/403/not-found, then 500/internal,
and otherwise surfaces the message itself (or a generic fallback when
the message is empty, which is falsy in JavaScript). -/
def classifyError (message : String) : String :=
  let msg := message.toLower
  if strContains msg "permission" || strContains msg "403" || strContains msg "not found" then
    "API Access Refused. Please select a valid paid key."
  else if strContains msg "500" || strContains msg "internal" then
    "The AI model encountered a temporary hiccup. Please try again."
  else if message = "" then
    "Forensic analysis failed. The image might be too blurry or complex."
  else message

/-- The post-analysis generating stage of `processFile`: joins the two
image syntheses and the narration synthesis; on joint success it writes
all three payloads into the session data and completes, and on any
failure it leaves the data untouched, records the classified error
message and moves to the error status. -/
def generatingStage (s : SessionState)
    (past present audio : Except String String) : SessionState :=
  match promiseAll3 past present audio with
  | .ok (p, pr, au) =>
    ⟨AppStatus.complete,
     { s.data with pastImage := some p, presentImage := some pr, audioBlob := some au },
     s.errorMsg⟩
  | .error m => ⟨AppStatus.error, s.data, some (classifyError m)⟩

theorem withRetry_step_ok {α : Type} (fn : Nat → Except JsError α)
    (retries delay start : Nat) (v : α) (h : fn start = .ok v) :
    withRetry fn retries delay start = ⟨.ok v, 1, []⟩ := by
  cases retries <;> (unfold withRetry; rw [h])

theorem withRetry_step_retry {α : Type} (fn : Nat → Except JsError α)
    (r delay start : Nat) (e : JsError) (he : fn start = .error e)
    (ht : isTransient e = true) :
    withRetry fn (r + 1) delay start =
      ⟨(withRetry fn r (delay * 2) (start + 1)).result,
       (withRetry fn r (delay * 2) (start + 1)).calls + 1,
       delay :: (withRetry fn r (delay * 2) (start + 1)).delays⟩ := by
  conv_lhs => rw [withRetry]
  rw [he]
  simp [ht]

theorem withRetry_step_exhausted {α : Type} (fn : Nat → Except JsError α)
    (delay start : Nat) (e : JsError) (he : fn start = .error e) :
    withRetry fn 0 delay start = ⟨.error e, 1, []⟩ := by
  unfold withRetry
  rw [he]

theorem withRetry_step_nontransient {α : Type} (fn : Nat → Except JsError α)
    (retries delay start : Nat) (e : JsError) (he : fn start = .error e)
    (ht : isTransient e = false) :
    withRetry fn retries delay start = ⟨.error e, 1, []⟩ := by
  cases retries with
  | zero => unfold withRetry; rw [he]
  | succ r => unfold withRetry; rw [he]; simp [ht]

theorem withRetry_skip {α : Type} (fn : Nat → Except JsError α) :
    ∀ (k retries delay start : Nat), k ≤ retries →
    (∀ i, i < k → ∃ e, fn (start + i) = .error e ∧ isTransient e = true) →
    withRetry fn retries delay start =
      ⟨(withRetry fn (retries - k) (delay * 2 ^ k) (start + k)).result,
       (withRetry fn (retries - k) (delay * 2 ^ k) (start + k)).calls + k,
       ((List.range k).map fun j => delay * 2 ^ j) ++
         (withRetry fn (retries - k) (delay * 2 ^ k) (start + k)).delays⟩ := by
  intro k
  induction k with
  | zero => intro retries delay start _ _; simp
  | succ k ih =>
    intro retries delay start hk hfail
    obtain ⟨r, rfl⟩ : ∃ r, retries = r + 1 :=
      ⟨retries - 1, (Nat.succ_pred_eq_of_pos (Nat.lt_of_lt_of_le (Nat.succ_pos k) hk)).symm⟩
    obtain ⟨e, he, ht⟩ := hfail 0 (Nat.succ_pos k)
    rw [Nat.add_zero] at he
    rw [withRetry_step_retry fn r delay start e he ht]
    have hfail₁ : ∀ i, i < k → ∃ e, fn (start + 1 + i) = .error e ∧ isTransient e = true := by
      intro i hi
      obtain ⟨e₁, he₁, ht₁⟩ := hfail (i + 1) (Nat.succ_lt_succ hi)
      exact ⟨e₁, by rw [show start + 1 + i = start + (i + 1) by omega]; exact he₁, ht₁⟩
    rw [ih r (delay * 2) (start + 1) (Nat.succ_le_succ_iff.mp hk) hfail₁]
    have harg : r - k = r + 1 - (k + 1) := by omega
    have harg₂ : delay * 2 * 2 ^ k = delay * 2 ^ (k + 1) := by ring
    have harg₃ : start + 1 + k = start + (k + 1) := by omega
    rw [harg, harg₂, harg₃]
    simp only [RetryTrace.mk.injEq]
    refine ⟨trivial, by omega, ?_⟩
    have hmap : (List.range (k + 1)).map (fun j => delay * 2 ^ j) =
        delay :: (List.range k).map fun j => delay * 2 * 2 ^ j := by
      rw [List.range_succ_eq_map, List.map_cons, List.map_map]
      refine congrArg₂ _ (by simp) (List.map_congr_left ?_)
      intro a _
      simp only [Function.comp_apply, Nat.succ_eq_add_one, pow_succ]
      ring
    rw [hmap]
    simp

/-- Claim C1: for a zero-argument asynchronous operation that fails
transiently exactly `k` times (`k ≤ MAX_RETRIES = 2`) and then succeeds,
`withRetry` (at the default retry count and default initial delay of
1000 ms) returns the operation's success value, invokes the operation
exactly `k + 1` times, and sleeps `INITIAL_BACKOFF * 2 ^ (i - 1)`
milliseconds before the `i`-th retry attempt (the recorded delay list is
`[1000 * 2 ^ 0, …, 1000 * 2 ^ (k - 1)]`). -/
theorem withRetry_transient_then_success {α : Type} (fn : Nat → Except JsError α)
    (k : Nat) (v : α) (hk : k ≤ MAX_RETRIES)
    (hfail : ∀ i, i < k → ∃ e, fn i = .error e ∧ isTransient e = true)
    (hsucc : fn k = .ok v) :
    withRetry fn MAX_RETRIES INITIAL_BACKOFF 0 =
      ⟨.ok v, k + 1, (List.range k).map fun j => INITIAL_BACKOFF * 2 ^ j⟩ := by
  have hs := withRetry_skip fn k MAX_RETRIES INITIAL_BACKOFF 0 hk
    (by intro i hi; simpa using hfail i hi)
  rw [withRetry_step_ok fn (MAX_RETRIES - k) (INITIAL_BACKOFF * 2 ^ k) (0 + k) v
    (by simpa using hsucc)] at hs
  simpa [Nat.add_comm] using hs

theorem withRetry_transient_then_success_witness :
    withRetry
      (fun i => if i < 2 then .error ⟨some "INTERNAL", none, none⟩ else .ok (42 : Nat))
      MAX_RETRIES INITIAL_BACKOFF 0 = ⟨.ok 42, 3, [1000, 2000]⟩ := by
  have h := withRetry_transient_then_success
    (fun i => if i < 2 then .error ⟨some "INTERNAL", none, none⟩ else .ok (42 : Nat))
    2 42 (by decide)
    (fun i hi => ⟨⟨some "INTERNAL", none, none⟩, by interval_cases i <;> rfl, rfl⟩)
    (by rfl)
  simpa using h

/-- Claim C2: if the operation fails transiently at every attempt (so in
particular more than `retries` times), `withRetry` rethrows the error of
the final attempt unchanged after exactly `retries + 1` invocations; if
the first failure is non-transient, it rethrows that error unchanged
after exactly 1 invocation. -/
theorem withRetry_failure_cases :
    (∀ (α : Type) (fn : Nat → Except JsError α) (elast : JsError)
       (retries delay start : Nat),
      (∀ i, i < retries → ∃ e, fn (start + i) = .error e ∧ isTransient e = true) →
      fn (start + retries) = .error elast → isTransient elast = true →
      withRetry fn retries delay start =
        ⟨.error elast, retries + 1, (List.range retries).map fun j => delay * 2 ^ j⟩) ∧
    (∀ (α : Type) (fn : Nat → Except JsError α) (e : JsError)
       (retries delay start : Nat),
      fn start = .error e → isTransient e = false →
      withRetry fn retries delay start = ⟨.error e, 1, []⟩) := by
  constructor
  · intro α fn elast retries delay start hfail hlast htrans
    have hs := withRetry_skip fn retries retries delay start (Nat.le_refl retries) hfail
    rw [Nat.sub_self] at hs
    rw [withRetry_step_exhausted fn (delay * 2 ^ retries) (start + retries) elast hlast] at hs
    simpa [Nat.add_comm] using hs
  · intro α fn e retries delay start he ht
    exact withRetry_step_nontransient fn retries delay start e he ht

theorem withRetry_failure_cases_witness :
    withRetry (fun _ => .error ⟨none, some 500, none⟩) 2 1000 0 =
      (⟨.error ⟨none, some 500, none⟩, 3, [1000, 2000]⟩ : RetryTrace Nat) ∧
    withRetry (fun _ => .error ⟨none, some 404, some "Not Found"⟩) 2 1000 0 =
      (⟨.error ⟨none, some 404, some "Not Found"⟩, 1, []⟩ : RetryTrace Nat) := by
  constructor
  · have h := withRetry_failure_cases.1 Nat (fun _ => .error ⟨none, some 500, none⟩)
      ⟨none, some 500, none⟩ 2 1000 0 (fun i _ => ⟨⟨none, some 500, none⟩, rfl, rfl⟩) rfl rfl
    simpa using h
  · exact withRetry_failure_cases.2 Nat (fun _ => .error ⟨none, some 404, some "Not Found"⟩)
      ⟨none, some 404, some "Not Found"⟩ 2 1000 0 rfl (by decide)

/-- Claim C3 counterexample: an error carrying the 5xx status code 502
(with the natural message "502 Bad Gateway") is classified as
non-transient by the code, and `withRetry` consequently gives up after a
single invocation instead of retrying — refuting the claim that every
5xx status is classified as transient. -/
theorem isTransient_5xx_counterexample :
    isTransient ⟨none, some 502, some "502 Bad Gateway"⟩ = false ∧
    (withRetry (fun _ => (.error ⟨none, some 502, some "502 Bad Gateway"⟩ : Except JsError Nat))
      MAX_RETRIES INITIAL_BACKOFF 0).calls = 1 := by
  constructor
  · decide
  · rw [withRetry_step_nontransient _ MAX_RETRIES INITIAL_BACKOFF 0
      ⟨none, some 502, some "502 Bad Gateway"⟩ rfl (by decide)]

/-- Claim C3 (amended): the wrapper classifies an error as transient iff
its status is exactly `"INTERNAL"`, its code is exactly `500`, or its
message contains the substring `"500"`.  Among server-side 5xx statuses
only 500 is recognised: codes such as 502 or 503 are treated as
non-transient unless their message happens to contain "500". -/
theorem isTransient_characterization :
    (∀ e : JsError, isTransient e = true ↔ transientSpecAmended e) ∧
    isTransient ⟨none, some 500, none⟩ = true ∧
    isTransient ⟨some "INTERNAL", none, none⟩ = true ∧
    isTransient ⟨none, none, some "Error: 500 Internal Server Error"⟩ = true ∧
    isTransient ⟨none, some 502, none⟩ = false ∧
    isTransient ⟨none, some 503, some "Service Unavailable"⟩ = false := by
  refine ⟨?_, by decide, by decide, by decide, by decide, by decide⟩
  rintro ⟨st, co, me⟩
  rcases me with _ | m <;>
    simp [isTransient, transientSpecAmended, Bool.or_eq_true, beq_iff_eq, or_assoc]

theorem bytesToInt16_length : ∀ data : List Nat, (bytesToInt16 data).length = data.length / 2
  | [] => by simp [bytesToInt16]
  | [_] => by simp [bytesToInt16]
  | lo :: hi :: rest => by
    have ih := bytesToInt16_length rest
    simp only [bytesToInt16, List.length_cons, ih]
    omega

theorem getD_range_map {α : Type} (n : Nat) (f : Nat → α) (c : Nat) (d : α) (h : c < n) :
    ((List.range n).map f).getD c d = f c := by
  rw [List.getD_eq_getElem?_getD, List.getElem?_map, List.getElem?_range h]
  rfl

theorem decodeAudioData_ok_core (data : List Nat) (sr ch : Nat)
    (h2 : data.length % 2 = 0) :
    ∃ buf, decodeAudioData data sr ch = .ok buf ∧
      buf.length = data.length / 2 / ch ∧
      buf.numberOfChannels = ch ∧ buf.sampleRate = sr ∧
      ∀ c f, c < ch → f < buf.length →
        sampleAt buf c f = ((bytesToInt16 data).getD (f * ch + c) 0 : ℚ) / 32768 := by
  refine ⟨_, by rw [decodeAudioData, if_neg (by omega)], ?_, rfl, rfl, ?_⟩
  · simp [bytesToInt16_length]
  · intro c f hc hf
    simp only [bytesToInt16_length] at hf
    unfold sampleAt
    simp only
    rw [getD_range_map ch _ c [] hc, getD_range_map _ _ f 0 (by simpa [bytesToInt16_length] using hf)]

/-- Claim C4: for a byte buffer whose length is an exact multiple of
`2 * channel_count`, the decoder succeeds and produces a planar buffer
whose frame count is `length / (2 * channel_count)` and whose sample at
channel `c`, frame `f` is the little-endian signed 16-bit value at
interleaved index `f * channel_count + c`, divided by 32768; in
particular any 4-byte mono input decoded at rate 24000 yields exactly
2 frames. -/
theorem decodeAudioData_exact_multiple :
    (∀ (data : List Nat) (sr ch : Nat), 0 < ch → data.length % (2 * ch) = 0 →
      ∃ buf, decodeAudioData data sr ch = .ok buf ∧
        buf.length = data.length / (2 * ch) ∧
        buf.numberOfChannels = ch ∧ buf.sampleRate = sr ∧
        ∀ c f, c < ch → f < buf.length →
          sampleAt buf c f = ((bytesToInt16 data).getD (f * ch + c) 0 : ℚ) / 32768) ∧
    (∀ data : List Nat, data.length = 4 →
      ∃ buf, decodeAudioData data 24000 1 = .ok buf ∧ buf.length = 2) := by
  constructor
  · intro data sr ch hch hlen
    have hdvd : 2 ∣ data.length := dvd_trans ⟨ch, rfl⟩ (Nat.dvd_of_mod_eq_zero hlen)
    have h2 : data.length % 2 = 0 := by omega
    obtain ⟨buf, hok, hlenb, hchb, hsr, hsamp⟩ := decodeAudioData_ok_core data sr ch h2
    exact ⟨buf, hok, by rw [hlenb, Nat.div_div_eq_div_mul], hchb, hsr, hsamp⟩
  · intro data hlen
    obtain ⟨buf, hok, hlenb, _, _, _⟩ := decodeAudioData_ok_core data 24000 1 (by omega)
    exact ⟨buf, hok, by rw [hlenb, hlen]⟩

theorem decodeAudioData_exact_multiple_witness :
    ∃ buf, decodeAudioData [0, 0, 0, 128] 24000 1 = .ok buf ∧
      buf.length = 2 ∧ sampleAt buf 0 1 = -1 := by
  obtain ⟨buf, hok, hlen, _, _, hsamp⟩ :=
    decodeAudioData_exact_multiple.1 [0, 0, 0, 128] 24000 1 (by decide) (by decide)
  refine ⟨buf, hok, by simpa using hlen, ?_⟩
  rw [hsamp 0 1 (by decide) (by simp [hlen])]
  norm_num [bytesToInt16, toInt16]

/-- Claim C5 counterexample: a 3-byte mono buffer (length not a multiple
of `2 * channel_count = 2`) makes the decoder raise a `RangeError` from
the 16-bit reinterpretation instead of silently truncating the partial
frame. -/
theorem decodeAudioData_odd_length_errors :
    decodeAudioData [0, 0, 0] 24000 1 =
      .error "RangeError: byte length of Int16Array should be a multiple of 2" := by
  rfl

/-- Claim C5 (amended): only for byte buffers of even length does the
decoder silently truncate a final partial frame — it succeeds and
decodes `floor((length / 2) / channel_count)` complete frames by the
interleaved-to-planar formula.  For a buffer of odd byte length the
16-bit reinterpretation raises a `RangeError`, so the decoder does
raise rather than truncate. -/
theorem decodeAudioData_truncation (data : List Nat) (sr ch : Nat) :
    (data.length % 2 = 0 →
      ∃ buf, decodeAudioData data sr ch = .ok buf ∧
        buf.length = data.length / 2 / ch ∧
        ∀ c f, c < ch → f < buf.length →
          sampleAt buf c f = ((bytesToInt16 data).getD (f * ch + c) 0 : ℚ) / 32768) ∧
    (data.length % 2 = 1 →
      decodeAudioData data sr ch =
        .error "RangeError: byte length of Int16Array should be a multiple of 2") := by
  constructor
  · intro h2
    obtain ⟨buf, hok, hlen, _, _, hsamp⟩ := decodeAudioData_ok_core data sr ch h2
    exact ⟨buf, hok, hlen, hsamp⟩
  · intro h1
    rw [decodeAudioData, if_pos (by omega)]

theorem decodeAudioData_truncation_witness :
    (∃ buf, decodeAudioData [1, 0, 2, 0, 3, 0] 24000 2 = .ok buf ∧ buf.length = 1) ∧
    decodeAudioData [0] 24000 2 =
      .error "RangeError: byte length of Int16Array should be a multiple of 2" := by
  constructor
  · obtain ⟨buf, hok, hlen, _⟩ :=
      (decodeAudioData_truncation [1, 0, 2, 0, 3, 0] 24000 2).1 (by decide)
    exact ⟨buf, hok, by simpa using hlen⟩
  · exact (decodeAudioData_truncation [0] 24000 2).2 (by decide)


theorem firstInlinePart_none (parts : List ContentPart)
    (h : ∀ p ∈ parts, p.inlineData = none) : firstInlinePart parts = none := by
  induction parts with
  | nil => rfl
  | cons p rest ih =>
    have hp := h p (List.mem_cons_self p rest)
    simp only [firstInlinePart, hp]
    exact ih fun q hq => h q (List.mem_cons_of_mem p hq)

/-- Claim C6: if no content part of the image-generation response
carries an inline binary payload, `generateImage` fails with the
synthesis-failure error; otherwise it returns the payload of the first
inline-data part as a base64 data URI — in particular a response whose
inline-data part has MIME type `image/png` and payload `"QUJD"` yields
exactly `"data:image/png;base64,QUJD"`. -/
theorem generateImage_first_inline_or_error (response : GenerateContentResponse) :
    ((∀ p ∈ partsOf response, p.inlineData = none) →
      generateImage response =
        .error "Visual synthesis failed. The fragment might be too complex.") ∧
    (∀ d, firstInlinePart (partsOf response) = some d →
      generateImage response = .ok ("data:image/png;base64," ++ d.data)) ∧
    generateImage ⟨none, some [⟨some ⟨some [⟨some ⟨"image/png", "QUJD"⟩⟩]⟩, none⟩]⟩ =
      .ok "data:image/png;base64,QUJD" := by
  refine ⟨?_, ?_, rfl⟩
  · intro h
    unfold generateImage
    rw [firstInlinePart_none (partsOf response) h]
  · intro d hd
    unfold generateImage
    rw [hd]

theorem generateImage_first_inline_or_error_witness :
    generateImage ⟨none, some [⟨some ⟨some [⟨none⟩]⟩, none⟩]⟩ =
      .error "Visual synthesis failed. The fragment might be too complex." ∧
    generateImage ⟨none, some [⟨some ⟨some [⟨none⟩, ⟨some ⟨"image/png", "QUJD"⟩⟩]⟩, none⟩]⟩ =
      .ok "data:image/png;base64,QUJD" := by
  constructor
  · exact (generateImage_first_inline_or_error
      ⟨none, some [⟨some ⟨some [⟨none⟩]⟩, none⟩]⟩).1 (by decide)
  · have h := (generateImage_first_inline_or_error
      ⟨none, some [⟨some ⟨some [⟨none⟩, ⟨some ⟨"image/png", "QUJD"⟩⟩]⟩, none⟩]⟩).2.1
      ⟨"image/png", "QUJD"⟩ rfl
    exact h.trans rfl

/-- Claim C10: whenever the response contains an inline-data part,
`generateImage` returns a data URI whose MIME prefix is the fixed
string `data:image/png;base64,`, independent of the MIME type recorded
on the payload — in particular an `image/jpeg` payload is still
labelled `image/png`. -/
theorem generateImage_fixed_png_mime :
    (∀ (response : GenerateContentResponse) (d : InlineData),
      firstInlinePart (partsOf response) = some d →
      generateImage response = .ok ("data:image/png;base64," ++ d.data)) ∧
    generateImage ⟨none, some [⟨some ⟨some [⟨some ⟨"image/jpeg", "QUJD"⟩⟩]⟩, none⟩]⟩ =
      .ok "data:image/png;base64,QUJD" := by
  constructor
  · intro response d hd
    unfold generateImage
    rw [hd]
  · rfl

theorem generateImage_fixed_png_mime_witness :
    generateImage ⟨none, some [⟨some ⟨some [⟨some ⟨"image/jpeg", "SlBFRw=="⟩⟩]⟩, none⟩]⟩ =
      .ok ("data:image/png;base64," ++ "SlBFRw==") :=
  generateImage_fixed_png_mime.1
    ⟨none, some [⟨some ⟨some [⟨some ⟨"image/jpeg", "SlBFRw=="⟩⟩]⟩, none⟩]⟩
    ⟨"image/jpeg", "SlBFRw=="⟩ rfl

theorem sourcesOfChunks_length (cs : List GroundingChunk) :
    (sourcesOfChunks (some cs)).length = (cs.filter (fun c => c.web.isSome)).length := by
  induction cs with
  | nil => rfl
  | cons c rest ih =>
    rcases hw : c.web with _ | w <;>
      simp [sourcesOfChunks, List.filterMap_cons, List.filter_cons, hw] <;>
      simpa [sourcesOfChunks] using ih

/-- Claim C7: a successful analysis always returns with `sources`
populated from the response's grounding chunks — every chunk with a web
citation contributes one `{title, uri}` entry (so the list length is
the number of web-cited chunks), a title-less chunk receiving the
fallback title `"Museum Database Entry"`; in particular two chunks, one
titled and one not, give a two-entry list whose title-less entry has
the fallback title. -/
theorem analyzeArtifact_sources :
    (∀ (response : GenerateContentResponse) (j : Json),
      jsonParse (response.text.getD "\x7b\x7d") = .ok j →
      analyzeArtifact response = .ok ⟨j, sourcesOfChunks (chunksOf response)⟩) ∧
    (∀ cs : List GroundingChunk,
      (sourcesOfChunks (some cs)).length = (cs.filter (fun c => c.web.isSome)).length) ∧
    (∀ t u₁ u₂ : String, t ≠ "" →
      sourcesOfChunks (some [⟨some ⟨some t, u₁⟩⟩, ⟨some ⟨none, u₂⟩⟩]) =
        [⟨t, u₁⟩, ⟨"Museum Database Entry", u₂⟩]) := by
  refine ⟨?_, sourcesOfChunks_length, ?_⟩
  · intro response j hj
    unfold analyzeArtifact
    rw [hj]
  · intro t u₁ u₂ ht
    simp [sourcesOfChunks, titleOrFallback, ht]

theorem analyzeArtifact_sources_witness :
    analyzeArtifact ⟨some "\x7b\x7d",
        some [⟨none, some ⟨some [⟨some ⟨some "Wikipedia", "https://a.example"⟩⟩,
          ⟨some ⟨none, "https://b.example"⟩⟩]⟩⟩]⟩ =
      .ok ⟨Json.obj [], [⟨"Wikipedia", "https://a.example"⟩,
        ⟨"Museum Database Entry", "https://b.example"⟩]⟩ ∧
    (sourcesOfChunks (some [⟨some ⟨some "Wikipedia", "https://a.example"⟩⟩,
      ⟨some ⟨none, "https://b.example"⟩⟩])).length = 2 := by
  constructor
  · have h := analyzeArtifact_sources.1 ⟨some "\x7b\x7d",
        some [⟨none, some ⟨some [⟨some ⟨some "Wikipedia", "https://a.example"⟩⟩,
          ⟨some ⟨none, "https://b.example"⟩⟩]⟩⟩]⟩ (Json.obj []) rfl
    exact h.trans rfl
  · rw [analyzeArtifact_sources.2.1]
    rfl

/-- Claim C8 counterexample: for a response with no JSON text at all
(and no candidates), `analyzeArtifact` succeeds — returning the parsed
empty object with an empty source list — instead of failing with a
missing-required-fields error as the claim asserts. -/
theorem analyzeArtifact_missing_text_succeeds :
    analyzeArtifact ⟨none, none⟩ = .ok ⟨Json.obj [], []⟩ := rfl

/-- Claim C8 (amended): when the response's JSON text is absent the
analyzer substitutes the empty-object string and parses it rather than
raising a parse error; but the code performs no required-field
validation, so the call succeeds and returns the empty object (with
only the derived `sources` attached) instead of failing with a
missing-required-fields error. -/
theorem analyzeArtifact_missing_text (cands : Option (List Candidate)) :
    jsonParse "\x7b\x7d" = .ok (Json.obj []) ∧
    analyzeArtifact ⟨none, cands⟩ =
      .ok ⟨Json.obj [], sourcesOfChunks (chunksOf ⟨none, cands⟩)⟩ :=
  ⟨rfl, rfl⟩

/-- Claim C9: in the post-analysis generating stage (two image
syntheses and one narration synthesis joined by `Promise.all`), if any
of the three fails then the stage moves to the error status, records an
error message, and writes none of the sibling results: the session's
`ReconstructionData` is exactly its pre-stage value. -/
theorem generatingStage_fail_fast (s : SessionState)
    (past present audio : Except String String)
    (hfail : (∃ e, past = .error e) ∨ (∃ e, present = .error e) ∨ ∃ e, audio = .error e) :
    (generatingStage s past present audio).status = AppStatus.error ∧
    (generatingStage s past present audio).data = s.data ∧
    (generatingStage s past present audio).errorMsg.isSome = true := by
  rcases past with e | p
  · simp [generatingStage, promiseAll3]
  rcases present with e | pr
  · simp [generatingStage, promiseAll3]
  rcases audio with e | au
  · simp [generatingStage, promiseAll3]
  · exfalso
    rcases hfail with ⟨e, he⟩ | ⟨e, he⟩ | ⟨e, he⟩ <;> simp at he

theorem generatingStage_fail_fast_witness :
    (generatingStage
      ⟨AppStatus.generating, ⟨none, none, none, some "orig", none⟩, none⟩
      (.ok "data:image/png;base64,QUJD") (.ok "data:image/png;base64,QUJE")
      (generateSpeech ⟨none, some [⟨some ⟨some []⟩, none⟩]⟩)).status = AppStatus.error ∧
    (generatingStage
      ⟨AppStatus.generating, ⟨none, none, none, some "orig", none⟩, none⟩
      (.ok "data:image/png;base64,QUJD") (.ok "data:image/png;base64,QUJE")
      (generateSpeech ⟨none, some [⟨some ⟨some []⟩, none⟩]⟩)).data =
      (⟨AppStatus.generating, ⟨none, none, none, some "orig", none⟩, none⟩ : SessionState).data ∧
    (generatingStage
      ⟨AppStatus.generating, ⟨none, none, none, some "orig", none⟩, none⟩
      (.ok "data:image/png;base64,QUJD") (.ok "data:image/png;base64,QUJE")
      (generateSpeech ⟨none, some [⟨some ⟨some []⟩, none⟩]⟩)).errorMsg.isSome = true :=
  generatingStage_fail_fast
    ⟨AppStatus.generating, ⟨none, none, none, some "orig", none⟩, none⟩
    (.ok "data:image/png;base64,QUJD") (.ok "data:image/png;base64,QUJE")
    (generateSpeech ⟨none, some [⟨some ⟨some []⟩, none⟩]⟩)
    (Or.inr (Or.inr ⟨"Audio synthesis failed.", rfl⟩))
